import Mathlib

/-
Verification of the Mindlink conversational agent (Rust sources
src/ai.rs, src/ai_memory.rs, src/main.rs) against its natural-language
specification.  The Rust code is shallowly embedded: the SQLite-backed
conversation log becomes an explicit `Store` value, the network transport
becomes a scripted list of attempt outcomes, and the control flow of
`ask_streaming` / `ask_once` is translated branch by branch.
-/

namespace Mindlink

/- ------------------------------------------------------------------ -/
/- Conversation store (src/ai_memory.rs)                               -/
/- ------------------------------------------------------------------ -/

/-- One raw database row of the `memory` table: `id INTEGER PRIMARY KEY
AUTOINCREMENT, role TEXT, content TEXT, ts TEXT` (ai_memory.rs lines
20-26).  The timestamp is stored as TEXT, exactly as in the schema;
parsing it back happens only on read (see `last_turns`). -/
structure Row where
  id : Nat
  role : String
  content : String
  ts : String
deriving DecidableEq

/-- The SQLite connection's visible state: the ordered table contents
plus the next AUTOINCREMENT id.  Rows are kept in insertion order, which
for a well-formed store coincides with ascending `id` order. -/
structure Store where
  nextId : Nat
  rows : List Row
deriving DecidableEq

/-- `Memory::open` on a fresh path: empty table, AUTOINCREMENT starts
at 1 (ai_memory.rs lines 17-31).  Opening an existing database yields
whatever state it held; theorems therefore quantify over arbitrary
well-formed stores. -/
def openFresh : Store := ⟨1, []⟩

/-- Well-formedness maintained by the SQLite schema: ids are strictly
increasing in insertion order and below the next AUTOINCREMENT value. -/
def Store.WF (s : Store) : Prop :=
  (s.rows.map Row.id).Pairwise (· < ·) ∧ ∀ r ∈ s.rows, r.id < s.nextId

/-- `Memory::append` (ai_memory.rs lines 32-39): inserts one row with a
fresh strictly-increasing id and the supplied timestamp string (the Rust
code passes `Utc::now().to_rfc3339()`). -/
def Store.append (s : Store) (role content ts : String) : Store :=
  ⟨s.nextId + 1, s.rows ++ [⟨s.nextId, role, content, ts⟩]⟩

/-- Stand-in for `Utc::now().to_rfc3339()` at commit time.  No claim
depends on the clock value, only on roles/contents/ids, so the model
uses a fixed valid RFC 3339 string. -/
def nowTs : String := "2025-01-01T00:00:00+00:00"

/-- `Memory::append` as called by the agent, with the current-time
timestamp. -/
def Store.appendNow (s : Store) (role content : String) : Store :=
  s.append role content nowTs

/-- One decoded turn, `ChatTurn` of ai_memory.rs lines 6-12.  The Rust
field `ts : DateTime<Utc>` is the result of parsing the stored TEXT
timestamp; the parsed type is abstract here (`α`), as is the external
chrono parser (a `String → Option α` argument below). -/
structure ChatTurn (α : Type) where
  id : Nat
  role : String
  content : String
  ts : α
deriving DecidableEq

/-- The per-row conversion done inside `query_map`'s closure
(ai_memory.rs lines 44-48): each row's `ts` TEXT is parsed with
`DateTime::parse_from_rfc3339(&ts_str).unwrap()`.  The `.unwrap()`
panics on the first row whose timestamp does not parse; the panic is
modelled as `none` (there is no error return on this path — `Result`
would be `Except`, which the code does not use here). -/
def convertRows {α : Type} (parse : String → Option α) :
    List Row → Option (List (ChatTurn α))
  | [] => some []
  | r :: rest =>
    match parse r.ts with
    | none => none
    | some t =>
      match convertRows parse rest with
      | none => none
      | some l => some (⟨r.id, r.role, r.content, t⟩ :: l)

/-- `Memory::last_turns` (ai_memory.rs lines 40-52): `SELECT id, role,
content, ts FROM memory ORDER BY id DESC LIMIT ?`, each row converted
(possibly panicking, see `convertRows`), then the vector is reversed to
oldest-first order.  On a well-formed store `ORDER BY id DESC` is
`rows.reverse` and `LIMIT n` is `take n`.  (The Rust `limit as i64`
cast can go negative for limits above `i64::MAX`, which SQLite treats
as "no limit" — on `Nat` limits that large, `take limit` likewise
returns everything, so the model agrees.)  The result is `none` exactly
when the unwrap panics. -/
def last_turns {α : Type} (parse : String → Option α) (s : Store) (limit : Nat) :
    Option (List (ChatTurn α)) :=
  (convertRows parse (s.rows.reverse.take limit)).map List.reverse

/-- `Memory::clear` (ai_memory.rs line 53): `DELETE FROM memory`.
SQLite AUTOINCREMENT keeps its counter, so `nextId` is unchanged. -/
def Store.clear (s : Store) : Store := ⟨s.nextId, []⟩

/- ------------------------------------------------------------------ -/
/- Request / response data (src/ai.rs)                                 -/
/- ------------------------------------------------------------------ -/

/-- `OpenAIMessage` (ai.rs lines 11-15): one `{role, content}` pair. -/
structure OpenAIMessage where
  role : String
  content : String
deriving DecidableEq

/-- `StreamChunkChoiceDelta` (ai.rs lines 24-30). -/
structure StreamChunkChoiceDelta where
  content : Option String
  role : Option String
deriving DecidableEq

/-- `StreamChunkChoice` (ai.rs lines 32-37). -/
structure StreamChunkChoice where
  delta : StreamChunkChoiceDelta
  finish_reason : Option String
deriving DecidableEq

/-- `StreamChunk` (ai.rs lines 39-42): the parsed form of one
server-sent-event data payload. -/
structure StreamChunk where
  choices : List StreamChunkChoice
deriving DecidableEq

/-- Outcome of inspecting one event's data segment (ai.rs lines
162-167): the trimmed data is either the literal `[DONE]` sentinel, or
it parses as a `StreamChunk` via `serde_json::from_str`, or it fails to
parse (`malformed`).  The external trim/JSON parse pair is abstracted
into this three-way classification. -/
inductive Payload where
  | done : Payload
  | chunk : StreamChunk → Payload
  | malformed : Payload
deriving DecidableEq

/-- One item yielded by `es.next()` (ai.rs lines 156-207): a
connection-open notification, a message event carrying a payload, or an
error whose rendered text is `msg`. -/
inductive SseEvent where
  | openEvt : SseEvent
  | message : Payload → SseEvent
  | failure : String → SseEvent
deriving DecidableEq

/-- The fragment a parsed chunk contributes to the accumulator (ai.rs
lines 168-174): only `choices.get(0)`'s `delta.content` counts; a chunk
with no choices or no content contributes nothing. -/
def chunkFrag (c : StreamChunk) : String :=
  match c.choices.head? with
  | none => ""
  | some choice => choice.delta.content.getD ""

/-- `RespChoice` of the non-streaming fallback response (ai.rs lines
235-238). -/
structure RespChoice where
  message : OpenAIMessage
deriving DecidableEq

/-- `Resp` of the non-streaming fallback response (ai.rs lines
239-242). -/
structure Resp where
  choices : List RespChoice
deriving DecidableEq

/-- Extraction of the fallback result text (ai.rs lines 261-266):
`choices.into_iter().next().map(|c| c.message.content).unwrap_or_default()`. -/
def respContent (r : Resp) : String :=
  match r.choices.head? with
  | none => ""
  | some c => c.message.content

/- ------------------------------------------------------------------ -/
/- Error classification (ai.rs lines 133 and 181)                      -/
/- ------------------------------------------------------------------ -/

/-- Whether the character list `n` occurs as a leading run of `l`. -/
def leadMatch : List Char → List Char → Bool
  | [], _ => true
  | _ :: _, [] => false
  | a :: as, b :: bs => a == b && leadMatch as bs

/-- Whether the character list `n` occurs contiguously anywhere in
`l`; this is `str::contains` on the underlying characters. -/
def hasInfix (n : List Char) : List Char → Bool
  | [] => leadMatch n []
  | b :: bs => leadMatch n (b :: bs) || hasInfix n bs

/-- The rate-limit classification used at both failure sites (ai.rs
lines 133 and 181): `msg.contains("429") || msg.contains("Too Many
Requests")` on the rendered error text. -/
def msgIsRateLimit (msg : String) : Bool :=
  hasInfix "429".toList msg.toList || hasInfix "Too Many Requests".toList msg.toList

/- ------------------------------------------------------------------ -/
/- Agent construction and context building (ai.rs lines 44-86)         -/
/- ------------------------------------------------------------------ -/

/-- The agent state (ai.rs lines 44-52), minus the HTTP client handle
and the open store connection, which carry no decision-relevant state
of their own (the store is threaded separately through the exchange
functions). -/
structure AiAgent where
  provider : String
  model : String
  memoryTurns : Nat
deriving DecidableEq

/-- `AiAgent::new` (ai.rs lines 55-74).  The environment lookups
(`AI_PROVIDER`, `AI_MODEL`, `AI_MEMORY_TURNS`) are passed in already
resolved; `Client::builder().build()` and `Memory::open` fail only on
I/O grounds outside the model.  The decision-relevant fact mirrored
here: the constructor stores whatever provider string it is given and
performs no provider validation whatsoever — the check against
`"openai"` happens only at the top of `ask_streaming`. -/
def AiAgent.new (provider model : String) (memoryTurns : Nat) :
    Except String AiAgent :=
  Except.ok ⟨provider, model, memoryTurns⟩

/-- `build_history` (ai.rs lines 76-86): the for-loop pushing one
`OpenAIMessage {role: h.role, content: h.content}` per history turn, in
order. -/
def build_history {α : Type} : List (ChatTurn α) → List OpenAIMessage
  | [] => []
  | h :: t => ⟨h.role, h.content⟩ :: build_history t

/-- The full request message list of an exchange (ai.rs lines 95-99 and
223-227): the verbatim history messages followed by one final
`{role: "user", content: prompt}`. -/
def buildMessages {α : Type} (history : List (ChatTurn α)) (prompt : String) :
    List OpenAIMessage :=
  build_history history ++ [⟨"user", prompt⟩]

/- ------------------------------------------------------------------ -/
/- Non-streaming fallback `ask_once` (ai.rs lines 221-271)             -/
/- ------------------------------------------------------------------ -/

/-- `ask_once` (ai.rs lines 221-271).  `apiKey` is whether
`OPENAI_API_KEY` is set (its absence propagates as an error via `?`);
`response` is the outcome of the POST + JSON decode (`none` models a
transport or decode failure propagating via `?`).  On success the text
is the first choice's message content (empty when `choices` is empty),
and the function itself commits the `(user, assistant)` pair to the
store (lines 268-269) before returning. -/
def ask_once (apiKey : Bool) (response : Option Resp) (prompt : String)
    (store : Store) : Except String (String × Store) :=
  if apiKey = false then Except.error "OPENAI_API_KEY not set"
  else
    match response with
    | none => Except.error "request failed"
    | some r =>
      let out := respContent r
      Except.ok (out, (store.appendNow "user" prompt).appendNow "assistant" out)

/- ------------------------------------------------------------------ -/
/- Streaming exchange `ask_streaming` (ai.rs lines 88-218)             -/
/- ------------------------------------------------------------------ -/

/-- Result of the inner `while let Some(event) = es.next().await` loop
(ai.rs lines 156-208) as seen by the surrounding code. -/
inductive StreamOutcome where
  | success : String → StreamOutcome
  | fallbackNeeded : StreamOutcome
  | fatal : String → StreamOutcome
deriving DecidableEq

/-- The inner event loop (ai.rs lines 156-208).  The `closed` flag is
the `EventSource` close state: once `es.close()` has run, `es.next()`
yields `None`, so the `while let` exits and control reaches the outer
loop's final `break` (line 211) — modelled by returning
`StreamOutcome.success` with the current accumulator.

Branches, in source order:
- a closed source yields `None`: the while exits, the outer `break`
  runs, the loop ends successfully with the current accumulator;
- natural end of the transport's events: same;
- `Event::Open`: nothing (lines 158-160);
- `Event::Message` whose trimmed data is `[DONE]`: `es.close(); break`
  (lines 163-166) — the while is left at once, success;
- a payload parsing as a chunk: choice 0's `delta.content`, when
  present, is appended to the accumulator (lines 167-176);
- a malformed payload: the `if let Ok(..)` fails, nothing happens, the
  stream continues (line 167);
- `Err(e)` (lines 178-206): `es.close()`, then
  * rate-limit text and `attempts <= max_retries`: sleep, `acc.clear()`,
    `continue` — in Rust this `continue` targets the innermost loop,
    which is the `while let` itself, not the outer retry `loop`; the
    next `es.next()` on the now-closed source yields `None`, the while
    exits and the outer `break` runs.  Modelled by recursing with
    `closed := true` and the cleared accumulator;
  * `attempts > max_retries`: fall back to `ask_once` (handled by the
    caller via `fallbackNeeded`);
  * otherwise: `return Err("stream error: ..")` — fatal. -/
def pollLoop (maxRetries attempts : Nat) :
    Bool → String → List SseEvent → StreamOutcome
  | true, acc, _ => StreamOutcome.success acc
  | false, acc, [] => StreamOutcome.success acc
  | false, acc, e :: rest =>
    match e with
    | SseEvent.openEvt => pollLoop maxRetries attempts false acc rest
    | SseEvent.message Payload.done => pollLoop maxRetries attempts true acc rest
    | SseEvent.message (Payload.chunk c) =>
        pollLoop maxRetries attempts false (acc ++ chunkFrag c) rest
    | SseEvent.message Payload.malformed =>
        pollLoop maxRetries attempts false acc rest
    | SseEvent.failure msg =>
        if msgIsRateLimit msg = true ∧ attempts ≤ maxRetries then
          pollLoop maxRetries attempts true "" rest
        else if maxRetries < attempts then StreamOutcome.fallbackNeeded
        else StreamOutcome.fatal msg

/-- One scripted attempt of the transport: either `EventSource::new`
itself returns `Err` (rendered as `msg`), or a source is obtained and
yields the scripted events before closing naturally. -/
inductive Attempt where
  | connErr : String → Attempt
  | stream : List SseEvent → Attempt
deriving DecidableEq

/-- Observable state of one exchange: the store plus instrumentation
counting how many times the retry loop ran (`EventSource::new` calls)
and how many times the non-streaming fallback `ask_once` was invoked. -/
structure ExchState where
  store : Store
  streamAttempts : Nat
  fallbackCalls : Nat
deriving DecidableEq

/-- The retry `loop` of `ask_streaming` (ai.rs lines 119-217), one
scripted transport attempt per iteration.  `attempts` is the counter
incremented at the top of each iteration (line 120).  Returns `none`
when the script is exhausted (the loop would need a further attempt the
script does not determine).

`connErr` branch (lines 129-153), in source order:
- rate-limit text and `attempts <= max_retries`: sleep and `continue`
  the outer loop — a genuine retry;
- `attempts > max_retries`: `ask_once` fallback; its result is
  propagated (`?`) and returned; note `ask_once` itself commits the
  turn pair, and this branch adds no further commit;
- otherwise `return Err(e)`.

`stream` branch: run the event loop, then
- success: the outer `break` (line 211) runs and the function tail
  (lines 214-217) commits `(user, prompt)` then `(assistant, acc)` and
  returns the accumulator;
- fallbackNeeded (lines 193-204): `ask_once` fallback — which itself
  commits the pair — followed by ANOTHER explicit commit of the same
  pair (lines 200-201), then return;
- fatal: `return Err("stream error: ..")`. -/
def runAttempts (prompt : String) (maxRetries : Nat) (apiKey : Bool)
    (response : Option Resp) :
    Nat → String → ExchState → List Attempt →
    Option (ExchState × Except String String)
  | _, _, _, [] => none
  | attempts, acc, st, Attempt.connErr msg :: rest =>
    let st' : ExchState := { st with streamAttempts := st.streamAttempts + 1 }
    if msgIsRateLimit msg = true ∧ attempts + 1 ≤ maxRetries then
      runAttempts prompt maxRetries apiKey response (attempts + 1) acc st' rest
    else if maxRetries < attempts + 1 then
      let st2 : ExchState := { st' with fallbackCalls := st'.fallbackCalls + 1 }
      match ask_once apiKey response prompt st2.store with
      | Except.error e => some (st2, Except.error e)
      | Except.ok (out, store') =>
          some ({ st2 with store := store' }, Except.ok out)
    else some (st', Except.error msg)
  | attempts, acc, st, Attempt.stream events :: _rest =>
    let st' : ExchState := { st with streamAttempts := st.streamAttempts + 1 }
    match pollLoop maxRetries (attempts + 1) false acc events with
    | StreamOutcome.success acc' =>
        let store' := (st'.store.appendNow "user" prompt).appendNow "assistant" acc'
        some ({ st' with store := store' }, Except.ok acc')
    | StreamOutcome.fallbackNeeded =>
        let st2 : ExchState := { st' with fallbackCalls := st'.fallbackCalls + 1 }
        match ask_once apiKey response prompt st2.store with
        | Except.error e => some (st2, Except.error e)
        | Except.ok (out, store') =>
            let store'' := (store'.appendNow "user" prompt).appendNow "assistant" out
            some ({ st2 with store := store'' }, Except.ok out)
    | StreamOutcome.fatal msg =>
        some (st', Except.error ("stream error: " ++ msg))

/-- `ask_streaming` (ai.rs lines 88-218).  Guards in source order: the
provider must be `"openai"` (lines 89-91) and `OPENAI_API_KEY` must be
set (lines 92-93); only then is the request built and the retry loop
entered with `attempts = 0` and an empty accumulator (lines 116-117).
The request body itself (model, `build_history` + final user message,
`stream: true`) does not influence the scripted transport and is
characterised separately via `buildMessages`. -/
def ask_streaming (agent : AiAgent) (apiKey : Bool) (maxRetries : Nat)
    (response : Option Resp) (transport : List Attempt) (prompt : String)
    (store : Store) : Option (ExchState × Except String String) :=
  if agent.provider ≠ "openai" then
    some (⟨store, 0, 0⟩,
      Except.error "Only the openai provider is enabled in this build.")
  else if apiKey = false then
    some (⟨store, 0, 0⟩, Except.error "OPENAI_API_KEY not set")
  else
    runAttempts prompt maxRetries apiKey response 0 "" ⟨store, 0, 0⟩ transport

/- ------------------------------------------------------------------ -/
/- Concrete fixtures shared by the evaluation theorems                 -/
/- ------------------------------------------------------------------ -/

/-- An agent configured with the supported provider and defaults. -/
def agentOk : AiAgent := ⟨"openai", "gpt-5", 6⟩

/-- A fallback response whose single choice carries content "FB". -/
def respFB : Resp := ⟨[⟨⟨"assistant", "FB"⟩⟩]⟩

/-- A freshly opened, empty store. -/
def freshStore : Store := openFresh

/-- A one-choice delta chunk carrying the given content fragment. -/
def mkChunk (s : String) : StreamChunk :=
  ⟨[⟨⟨some s, some "assistant"⟩, none⟩]⟩

/-- The persisted view of a decoded turn: id, role and content (the
parsed timestamp is dropped, since only its parsability matters). -/
def stripT {α : Type} (t : ChatTurn α) : Nat × String × String :=
  (t.id, t.role, t.content)

/-- The persisted view of a raw row: id, role and content. -/
def stripR (r : Row) : Nat × String × String :=
  (r.id, r.role, r.content)

/-- Whether an event is the `Err(e)` case of `es.next()`. -/
def isFailureEvt : SseEvent → Bool
  | SseEvent.failure _ => true
  | _ => false

/-- The specified accumulation over a failure-free stream: the
concatenation of the content fragments of exactly the payloads that
parse as chunks, up to the first `[DONE]` sentinel; open notifications
and malformed payloads contribute nothing. -/
def validConcat : List SseEvent → String
  | [] => ""
  | SseEvent.message Payload.done :: _ => ""
  | SseEvent.message (Payload.chunk c) :: rest => chunkFrag c ++ validConcat rest
  | _ :: rest => validConcat rest

/- ------------------------------------------------------------------ -/
/- Helper lemmas                                                       -/
/- ------------------------------------------------------------------ -/

/-- When every reached row's timestamp parses, the row conversion
succeeds and preserves ids, roles and contents in order. -/
theorem convertRows_valid {α : Type} (parse : String → Option α) :
    ∀ rs : List Row, (∀ r ∈ rs, (parse r.ts).isSome) →
      ∃ l, convertRows parse rs = some l ∧ l.map stripT = rs.map stripR := by
  intro rs
  induction rs with
  | nil => exact fun _ => ⟨[], rfl, rfl⟩
  | cons r rest ih =>
    intro hv
    obtain ⟨t, ht⟩ := Option.isSome_iff_exists.mp (hv r (by simp))
    obtain ⟨l, hc, hs⟩ := ih (fun x hx => hv x (by simp [hx]))
    refine ⟨⟨r.id, r.role, r.content, t⟩ :: l, ?_, ?_⟩
    · simp [convertRows, ht, hc]
    · simp [stripT, stripR, hs]

/-- The row conversion aborts (the `.unwrap()` panics) as soon as any
reached row's timestamp fails to parse. -/
theorem convertRows_invalid {α : Type} (parse : String → Option α) :
    ∀ rs : List Row, (∃ r ∈ rs, parse r.ts = none) →
      convertRows parse rs = none := by
  intro rs
  induction rs with
  | nil => rintro ⟨r, hr, _⟩; cases hr
  | cons r rest ih =>
    rintro ⟨x, hx, hbad⟩
    rcases List.mem_cons.mp hx with h | h
    · subst h; simp [convertRows, hbad]
    · cases hp : parse r.ts with
      | none => simp [convertRows, hp]
      | some t => simp [convertRows, hp, ih ⟨x, h, hbad⟩]

/- ------------------------------------------------------------------ -/
/- Claim theorems                                                      -/
/- ------------------------------------------------------------------ -/

/-- C4: for every well-formed store whose timestamps all parse and
every `n`, `last_turns n` succeeds and returns at most `n` turns, in
strictly increasing id (chronological, oldest-first) order; it returns
all turns (same ids, roles, contents, in order) when `n` is at least
the total count, and the empty sequence when `n = 0`. -/
theorem c4_last_turns_spec {α : Type} (parse : String → Option α)
    (s : Store) (n : Nat) (hwf : s.WF)
    (hvalid : ∀ r ∈ s.rows, (parse r.ts).isSome) :
    ∃ l, last_turns parse s n = some l
      ∧ l.length ≤ n
      ∧ (l.map ChatTurn.id).Pairwise (· < ·)
      ∧ (s.rows.length ≤ n → l.map stripT = s.rows.map stripR)
      ∧ (n = 0 → l = []) := by
  have hval' : ∀ r ∈ s.rows.reverse.take n, (parse r.ts).isSome :=
    fun r hr => hvalid r (List.mem_reverse.mp (List.mem_of_mem_take hr))
  obtain ⟨l, hc, hs⟩ := convertRows_valid parse _ hval'
  have hlen : l.length = (s.rows.reverse.take n).length := by
    have := congrArg List.length hs
    simpa using this
  have hrevmap : l.reverse.map stripT
      = (s.rows.reverse.take n).reverse.map stripR := by
    rw [List.map_reverse, List.map_reverse, hs]
  refine ⟨l.reverse, ?_, ?_, ?_, ?_, ?_⟩
  · simp [last_turns, hc]
  · simp only [List.length_reverse, hlen]
    exact s.rows.reverse.length_take_le n
  · have hids : l.reverse.map ChatTurn.id
        = (s.rows.reverse.take n).reverse.map Row.id := by
      have h2 := congrArg (List.map Prod.fst) hrevmap
      simpa [List.map_map, stripT, stripR, Function.comp] using h2
    have hsub : List.Sublist (s.rows.reverse.take n).reverse s.rows := by
      have h1 := List.Sublist.reverse (List.take_sublist n s.rows.reverse)
      simpa using h1
    rw [hids]
    exact hwf.1.sublist (hsub.map Row.id)
  · intro hn
    have htake : s.rows.reverse.take n = s.rows.reverse :=
      List.take_of_length_le (by simpa using hn)
    rw [hrevmap, htake, List.reverse_reverse]
  · intro h0
    subst h0
    have h1 : l.length = 0 := by simpa using hlen
    simp [List.length_eq_zero.mp h1]

/-- C4 witness: the theorem applied to a concrete two-turn store with
limit 5. -/
theorem c4_last_turns_spec_witness :
    ∃ l, last_turns (fun t => if t = nowTs then some 0 else none)
        (Store.mk 3 [⟨1, "user", "hi", nowTs⟩, ⟨2, "assistant", "hello", nowTs⟩])
        5 = some l
      ∧ l.length ≤ 5
      ∧ (l.map ChatTurn.id).Pairwise (· < ·)
      ∧ ((Store.mk 3 [⟨1, "user", "hi", nowTs⟩,
            ⟨2, "assistant", "hello", nowTs⟩]).rows.length ≤ 5 →
          l.map stripT
            = (Store.mk 3 [⟨1, "user", "hi", nowTs⟩,
                ⟨2, "assistant", "hello", nowTs⟩]).rows.map stripR)
      ∧ (5 = 0 → l = []) :=
  c4_last_turns_spec (fun t => if t = nowTs then (some 0) else none)
    (Store.mk 3 [⟨1, "user", "hi", nowTs⟩, ⟨2, "assistant", "hello", nowTs⟩]) 5
    ⟨by decide, by decide⟩ (by decide)

/-- C9: `last_turns` aborts abnormally (the `unwrap` on the RFC 3339
parse panics — there is no `StorageError` return on this path) exactly
when some reached row's stored timestamp fails to parse; it is total
whenever every stored timestamp parses.  In particular, a store holding
an unparsable timestamp makes every call whose limit reaches that row
abort, so `last_turns` is total for all limits only under the
precondition that every stored timestamp is valid. -/
theorem c9_invalid_timestamp_aborts {α : Type} (parse : String → Option α)
    (s : Store) (n : Nat) :
    ((∃ r ∈ s.rows.reverse.take n, parse r.ts = none) →
      last_turns parse s n = none)
    ∧ ((∀ r ∈ s.rows, (parse r.ts).isSome) →
      (last_turns parse s n).isSome) := by
  constructor
  · intro hbad
    have := convertRows_invalid parse _ hbad
    simp [last_turns, this]
  · intro hv
    obtain ⟨l, hc, _⟩ := convertRows_valid parse (s.rows.reverse.take n)
      (fun r hr => hv r (List.mem_reverse.mp (List.mem_of_mem_take hr)))
    simp [last_turns, hc]

/-- C9 witness: a store whose only row has an unparsable timestamp
makes `last_turns 1` abort. -/
theorem c9_invalid_timestamp_aborts_witness :
    last_turns (fun _ => (none : Option Nat))
      (Store.mk 2 [⟨1, "user", "hi", "not-a-date"⟩]) 1 = none :=
  (c9_invalid_timestamp_aborts (fun _ => (none : Option Nat))
    (Store.mk 2 [⟨1, "user", "hi", "not-a-date"⟩]) 1).1
    ⟨⟨1, "user", "hi", "not-a-date"⟩, by decide, rfl⟩

/-- C5: over any failure-free portion of a stream, every payload that
is not the `[DONE]` sentinel and fails to parse is silently skipped:
the loop runs to completion with no error, and the accumulated text is
the starting accumulator followed by the fragments of exactly the valid
chunk payloads. -/
theorem c5_malformed_skipped (maxRetries attempts : Nat)
    (events : List SseEvent) (acc : String)
    (hnf : ∀ e ∈ events, isFailureEvt e = false) :
    pollLoop maxRetries attempts false acc events
      = StreamOutcome.success (acc ++ validConcat events) := by
  induction events generalizing acc with
  | nil => simp [pollLoop, validConcat]
  | cons e rest ih =>
    have hrest : ∀ x ∈ rest, isFailureEvt x = false :=
      fun x hx => hnf x (by simp [hx])
    cases e with
    | openEvt =>
      simpa [pollLoop, validConcat] using ih acc hrest
    | message p =>
      cases p with
      | done => simp [pollLoop, validConcat]
      | chunk c =>
        have := ih (acc ++ chunkFrag c) hrest
        simpa [pollLoop, validConcat, String.append_assoc] using this
      | malformed =>
        simpa [pollLoop, validConcat] using ih acc hrest
    | failure m =>
      have := hnf (SseEvent.failure m) (by simp)
      simp [isFailureEvt] at this

/-- C5 witness: a malformed payload between two valid ones is skipped
and the accumulated text is the concatenation of the valid fragments. -/
theorem c5_malformed_skipped_witness :
    pollLoop 5 1 false ""
      [SseEvent.message (Payload.chunk (mkChunk "Hel")),
       SseEvent.message Payload.malformed,
       SseEvent.message (Payload.chunk (mkChunk "lo")),
       SseEvent.message Payload.done]
      = StreamOutcome.success "Hello" := by
  rw [c5_malformed_skipped 5 1
    [SseEvent.message (Payload.chunk (mkChunk "Hel")),
     SseEvent.message Payload.malformed,
     SseEvent.message (Payload.chunk (mkChunk "lo")),
     SseEvent.message Payload.done] "" (by decide)]
  rfl

/-- C8: the built request message list is one `{role, content}` message
per history turn, verbatim and in order, followed by exactly one final
`{role: "user", content: prompt}` message.  (In this embedding the
builder is a pure function of the already-fetched history, so it cannot
touch the store.) -/
theorem c8_build_messages {α : Type} (history : List (ChatTurn α))
    (prompt : String) :
    buildMessages history prompt
      = history.map (fun h => OpenAIMessage.mk h.role h.content)
          ++ [OpenAIMessage.mk "user" prompt] := by
  induction history with
  | nil => rfl
  | cons h t ih =>
    show OpenAIMessage.mk h.role h.content :: buildMessages t prompt
      = OpenAIMessage.mk h.role h.content
          :: (t.map (fun x => OpenAIMessage.mk x.role x.content)
              ++ [OpenAIMessage.mk "user" prompt])
    rw [ih]

/-- C10: a fallback response with an empty `choices` list makes
`ask_once` succeed with the empty string (not an error), committing the
user prompt followed by an assistant turn with empty content. -/
theorem c10_empty_choices_ok (prompt : String) (store : Store) :
    ask_once true (some (Resp.mk [])) prompt store
      = Except.ok ("", (store.appendNow "user" prompt).appendNow "assistant" "")
    ∧ ((store.appendNow "user" prompt).appendNow "assistant" "").rows
      = store.rows ++ [⟨store.nextId, "user", prompt, nowTs⟩,
                       ⟨store.nextId + 1, "assistant", "", nowTs⟩] := by
  constructor
  · rfl
  · simp [Store.appendNow, Store.append]

/-- C1 (code bug evaluation): with `max_retries = 0` and a first
attempt that fails mid-stream, the exchange succeeds through the
non-streaming fallback but appends TWO (user, assistant) pairs — once
inside `ask_once` (ai.rs lines 268-269) and once more in the
mid-stream fallback branch of `ask_streaming` (ai.rs lines 200-201) —
contradicting the spec's exactly-one-pair-per-exchange rule. -/
theorem c1_fallback_double_commit :
    ask_streaming agentOk true 0 (some respFB)
      [Attempt.stream [SseEvent.failure "boom"]] "hi" freshStore
    = some (⟨⟨5, [⟨1, "user", "hi", nowTs⟩, ⟨2, "assistant", "FB", nowTs⟩,
                  ⟨3, "user", "hi", nowTs⟩, ⟨4, "assistant", "FB", nowTs⟩]⟩,
             1, 1⟩,
        Except.ok "FB") := rfl

/-- C2 (code bug evaluation): against a transport whose every streaming
attempt fails mid-stream with a rate-limit signal (`max_retries = 3`,
four failing attempts scripted), the code does not retry and does not
fall back: the `continue` in the mid-stream error arm (ai.rs line 191)
targets the inner `while let` loop over the already-closed event
source, which immediately yields `None`, so the exchange "succeeds"
after a single attempt with zero fallback calls, committing an empty
assistant turn instead of the fallback response's content "FB". -/
theorem c2_midstream_rate_limit_no_retry :
    ask_streaming agentOk true 3 (some respFB)
      [Attempt.stream [SseEvent.failure "429 Too Many Requests"],
       Attempt.stream [SseEvent.failure "429 Too Many Requests"],
       Attempt.stream [SseEvent.failure "429 Too Many Requests"],
       Attempt.stream [SseEvent.failure "429 Too Many Requests"]]
      "hi" freshStore
    = some (⟨⟨3, [⟨1, "user", "hi", nowTs⟩, ⟨2, "assistant", "", nowTs⟩]⟩,
             1, 0⟩,
        Except.ok "") := rfl

/-- C6 (code bug evaluation): first attempt accumulates fragment "A"
then hits a mid-stream rate limit (`k = 1 < max_retries = 5`); the
scripted second attempt would stream "B" then `[DONE]`.  The code
discards the partial "A" but — because the mid-stream `continue`
targets the inner while-let over the closed source — never starts the
second attempt: it commits an empty assistant turn after one attempt,
instead of retrying once and committing "B". -/
theorem c6_partial_discarded_but_no_retry :
    ask_streaming agentOk true 5 (some respFB)
      [Attempt.stream [SseEvent.message (Payload.chunk (mkChunk "A")),
                       SseEvent.failure "429"],
       Attempt.stream [SseEvent.message (Payload.chunk (mkChunk "B")),
                       SseEvent.message Payload.done]]
      "hi" freshStore
    = some (⟨⟨3, [⟨1, "user", "hi", nowTs⟩, ⟨2, "assistant", "", nowTs⟩]⟩,
             1, 0⟩,
        Except.ok "") := rfl

/-- Claim C3 counterexample: with `max_retries = 0`, a NON-rate-limit
connection failure does not propagate — the attempt counter (1) already
exceeds `max_retries`, so the code issues the non-streaming fallback
and returns its content successfully (one fallback call), refuting
"every other failure is fatal and the exchange propagates it
immediately ... and no fallback". -/
theorem c3_nonratelimit_falls_back :
    ask_streaming agentOk true 0 (some respFB)
      [Attempt.connErr "connection refused"] "hi" freshStore
    = some (⟨⟨3, [⟨1, "user", "hi", nowTs⟩, ⟨2, "assistant", "FB", nowTs⟩]⟩,
             1, 1⟩,
        Except.ok "FB") := rfl

/-- C3 (amended): a failure is classified retryable exactly when its
rendered text signals rate-limiting, but immediate propagation of other
failures holds only while the attempt count is within the retry budget:
(1) a non-rate-limit connection failure on an attempt numbered
`≤ max_retries` propagates at once — one more attempt counted, no
recursion into later attempts, no fallback call; (2) a rate-limit
connection failure within budget retries; (3) a non-rate-limit
mid-stream failure within budget is fatal for the event loop.  (Beyond
the budget, any failure triggers the fallback instead — see the
counterexample.) -/
theorem c3_classification (maxRetries : Nat) (apiKey : Bool)
    (response : Option Resp) (prompt : String) (attempts : Nat)
    (acc : String) (st : ExchState) (msg : String) (rest : List Attempt)
    (events : List SseEvent) :
    (msgIsRateLimit msg = false → attempts + 1 ≤ maxRetries →
      runAttempts prompt maxRetries apiKey response attempts acc st
          (Attempt.connErr msg :: rest)
        = some ({ st with streamAttempts := st.streamAttempts + 1 },
            Except.error msg))
    ∧ (msgIsRateLimit msg = true → attempts + 1 ≤ maxRetries →
      runAttempts prompt maxRetries apiKey response attempts acc st
          (Attempt.connErr msg :: rest)
        = runAttempts prompt maxRetries apiKey response (attempts + 1) acc
            { st with streamAttempts := st.streamAttempts + 1 } rest)
    ∧ (msgIsRateLimit msg = false → attempts ≤ maxRetries →
      pollLoop maxRetries attempts false acc (SseEvent.failure msg :: events)
        = StreamOutcome.fatal msg) := by
  refine ⟨fun hf hle => ?_, fun ht hle => ?_, fun hf hle => ?_⟩
  · have hnl : ¬ maxRetries < attempts + 1 := by omega
    simp [runAttempts, hf, hnl]
  · simp [runAttempts, ht, hle]
  · have hnl : ¬ maxRetries < attempts := by omega
    simp [pollLoop, hf, hnl]

/-- C3 witness: a concrete non-rate-limit connection failure on the
first attempt with `max_retries = 3` propagates immediately, with no
fallback call recorded. -/
theorem c3_classification_witness :
    runAttempts "hi" 3 true none 0 "" ⟨freshStore, 0, 0⟩
        [Attempt.connErr "connection refused"]
      = some (⟨freshStore, 1, 0⟩, Except.error "connection refused") :=
  (c3_classification 3 true none "hi" 0 "" ⟨freshStore, 0, 0⟩
    "connection refused" [] []).1 (by decide) (by decide)

/-- Claim C7 counterexample: constructing an agent with an unsupported
provider succeeds — `AiAgent::new` stores the provider string without
validating it, so no `UnsupportedProvider` error is raised at
configuration time. -/
theorem c7_new_accepts_any_provider :
    AiAgent.new "anthropic" "claude-3" 6
      = Except.ok ⟨"anthropic", "claude-3", 6⟩ := rfl

/-- C7 (amended): the unsupported-provider error is raised at the start
of each streaming exchange — before the credential check, before any
transport attempt (zero attempts, zero fallback calls, store untouched)
— not at agent construction. -/
theorem c7_provider_checked_at_exchange (agent : AiAgent)
    (h : agent.provider ≠ "openai") (apiKey : Bool) (maxRetries : Nat)
    (response : Option Resp) (transport : List Attempt) (prompt : String)
    (store : Store) :
    ask_streaming agent apiKey maxRetries response transport prompt store
      = some (⟨store, 0, 0⟩,
          Except.error "Only the openai provider is enabled in this build.") := by
  simp [ask_streaming, h]

/-- C7 witness: a concrete agent with provider "anthropic" fails every
exchange immediately, with zero attempts. -/
theorem c7_provider_checked_at_exchange_witness :
    ask_streaming ⟨"anthropic", "claude-3", 6⟩ true 5 none [] "hi" freshStore
      = some (⟨freshStore, 0, 0⟩,
          Except.error "Only the openai provider is enabled in this build.") :=
  c7_provider_checked_at_exchange ⟨"anthropic", "claude-3", 6⟩ (by decide)
    true 5 none [] "hi" freshStore

end Mindlink
